import Mathlib

/-!
Shallow embedding of `src/scripts/transcribe-local.py`, a thin command-line
driver around the faster-whisper speech-recognition library.

The external library (`faster_whisper.WhisperModel` and its `transcribe`
method) is modelled as an oracle: a structure of functions that either raise
an exception (`Except.error` with the exception's textual message) or return
a list of segments together with a summary info record.  Python floats
(segment start/end times, audio duration) are abstracted as rationals; the
driver never computes with them, it only copies them, so this abstraction is
exact for every claim considered here.  The textual rendering of a float by
Python (`float.__repr__`, used by `json.dumps`) is a parameter `fr` of the
serializer.

Stateful behaviour of the script (writes to stdout/stderr, library calls,
process exit) is made explicit: the driver returns the list of lines printed
to each stream, the list of library calls it performed, and the exit code.
-/

namespace NaatTranscribe

/-- A recognized segment as produced by the model library:
`segment.id`, `segment.start`, `segment.end`, `segment.text` in the source. -/
structure Segment where
  id : Int
  start : ℚ
  «end» : ℚ
  text : String
deriving DecidableEq

/-- The summary info record returned by `model.transcribe`:
`info.language` and `info.duration` in the source. -/
structure TranscriptionInfo where
  language : String
  duration : ℚ
deriving DecidableEq

/-- The dictionary built by `transcribe_audio` (source lines 49-54). -/
structure TranscriptionResult where
  language : String
  duration : ℚ
  text : String
  segments : List Segment
deriving DecidableEq

/-- The external faster-whisper library, as an oracle over an abstract model
handle type `M`.  `WhisperModel size device computeType` models the
constructor call; `transcribe m path lang beamSize wordTimestamps` models
`m.transcribe(path, language=lang, beam_size=beamSize, word_timestamps=wt)`,
already drained into a finite list (the driver fully consumes the lazy
sequence in its `for` loop).  `Except.error e` models a raised exception with
message `str(e) = e`. -/
structure FasterWhisper (M : Type) where
  WhisperModel : String → String → String → Except String M
  transcribe : M → String → String → Nat → Bool → Except String (List Segment × TranscriptionInfo)

/-- One call made by the driver into the library, recorded with the exact
argument values passed. -/
inductive LibCall where
  | loadModel (modelSize device computeType : String)
  | transcribeCall (audioPath language : String) (beamSize : Nat) (wordTimestamps : Bool)
deriving DecidableEq

/-- Everything observable about one execution of `transcribe_audio`:
the library calls made, the lines printed to stderr, and either the returned
result dictionary or the propagated exception message. -/
structure DriverRun where
  calls : List LibCall
  stderrLines : List String
  result : Except String TranscriptionResult

/-- Embedding of `transcribe_audio(audio_path, language)` (source lines
10-56).  It prints a progress line, constructs the model with the hardcoded
configuration `("large-v3", device="cpu", compute_type="int8")`, prints a
second progress line, calls `transcribe` with `beam_size=5` and
`word_timestamps=False`, then copies each segment's id/start/end/text into
`segment_list` while accumulating `full_text`, and returns the result
dictionary with `" ".join(full_text)`.  An exception anywhere propagates. -/
def transcribe_audio {M : Type} (lib : FasterWhisper M) (audio_path : String)
    (language : String) : DriverRun :=
  let stderr0 : List String := ["Loading Whisper model..."]
  let calls0 : List LibCall := [LibCall.loadModel "large-v3" "cpu" "int8"]
  match lib.WhisperModel "large-v3" "cpu" "int8" with
  | Except.error e => ⟨calls0, stderr0, Except.error e⟩
  | Except.ok model =>
    let stderr1 := stderr0 ++ ["Transcribing: " ++ audio_path]
    let calls1 := calls0 ++ [LibCall.transcribeCall audio_path language 5 false]
    match lib.transcribe model audio_path language 5 false with
    | Except.error e => ⟨calls1, stderr1, Except.error e⟩
    | Except.ok (segments, info) =>
      let segment_list := segments.map (fun segment =>
        ({ id := segment.id, start := segment.start, «end» := segment.«end»,
           text := segment.text } : Segment))
      let full_text := segments.map (fun segment => segment.text)
      ⟨calls1, stderr1, Except.ok
        { language := info.language
          duration := info.duration
          text := String.intercalate " " full_text
          segments := segment_list }⟩

/-! ### JSON serialization: model of `json.dumps(result, ensure_ascii=False, indent=2)` -/

/-- JSON values, restricted to what the script serializes.  `num` is a Python
float (abstracted as ℚ), `int` a Python int. -/
inductive Json where
  | str : String → Json
  | num : ℚ → Json
  | int : Int → Json
  | arr : List Json → Json
  | obj : List (String × Json) → Json

/-- Lowercase hex digit, as used by Python's `\uXXXX` escapes. -/
def hexDigit (n : Nat) : Char :=
  if n < 10 then Char.ofNat (48 + n) else Char.ofNat (87 + n)

/-- Four lowercase hex digits of `n % 0x10000`. -/
def hex4 (n : Nat) : String :=
  String.mk [hexDigit (n / 4096 % 16), hexDigit (n / 256 % 16),
             hexDigit (n / 16 % 16), hexDigit (n % 16)]

/-- Python `json` string-escaping of one character when `ensure_ascii=False`:
only `"`, `\` and control characters below U+0020 are escaped; every other
character (in particular every non-ASCII character) is emitted literally. -/
def pyEscapeChar (c : Char) : String :=
  if c = '"' then "\\\""
  else if c = '\\' then "\\\\"
  else if c = '\n' then "\\n"
  else if c = '\t' then "\\t"
  else if c = '\r' then "\\r"
  else if c = Char.ofNat 8 then "\\b"
  else if c = Char.ofNat 12 then "\\f"
  else if c.toNat < 32 then "\\u" ++ hex4 c.toNat
  else String.singleton c

/-- Python `json` rendering of a string literal with `ensure_ascii=False`. -/
def pyEscapeString (s : String) : String :=
  "\"" ++ String.join (s.data.map pyEscapeChar) ++ "\""

/-- `n` spaces. -/
def indentStr (n : Nat) : String :=
  String.mk (List.replicate n ' ')

mutual

/-- Model of `json.dumps(v, ensure_ascii=False, indent=2)` at nesting depth
`level` (the top-level call is at `level = 0`).  `fr` renders a Python float
(`float.__repr__`).  With `indent=2` Python uses item separator `","` +
newline + indent and key separator `": "`; empty containers render inline. -/
def dumps (fr : ℚ → String) (level : Nat) : Json → String
  | Json.str s => pyEscapeString s
  | Json.num q => fr q
  | Json.int n => toString n
  | Json.arr [] => "[]"
  | Json.arr (x :: xs) =>
    "[\n" ++ String.intercalate ",\n" (dumpsItems fr (level + 1) (x :: xs)) ++
      "\n" ++ indentStr (2 * level) ++ "]"
  | Json.obj [] => "\x7b\x7d"
  | Json.obj (kv :: kvs) =>
    "\x7b\n" ++ String.intercalate ",\n" (dumpsPairs fr (level + 1) (kv :: kvs)) ++
      "\n" ++ indentStr (2 * level) ++ "\x7d"

/-- The rendered items of a JSON array, each prefixed by its indentation. -/
def dumpsItems (fr : ℚ → String) (level : Nat) : List Json → List String
  | [] => []
  | x :: xs => (indentStr (2 * level) ++ dumps fr level x) :: dumpsItems fr level xs

/-- The rendered `"key": value` pairs of a JSON object, each prefixed by its
indentation. -/
def dumpsPairs (fr : ℚ → String) (level : Nat) : List (String × Json) → List String
  | [] => []
  | (k, v) :: kvs =>
    (indentStr (2 * level) ++ pyEscapeString k ++ ": " ++ dumps fr level v) ::
      dumpsPairs fr level kvs

end

/-- The JSON value serialized for one segment dictionary. -/
def segmentToJson (s : Segment) : Json :=
  Json.obj [("id", Json.int s.id), ("start", Json.num s.start),
            ("end", Json.num s.«end»), ("text", Json.str s.text)]

/-- The JSON value serialized for the result dictionary. -/
def resultToJson (r : TranscriptionResult) : Json :=
  Json.obj [("language", Json.str r.language), ("duration", Json.num r.duration),
            ("text", Json.str r.text),
            ("segments", Json.arr (r.segments.map segmentToJson))]

/-- The keys of a JSON object, in order. -/
def jsonKeys : Json → List String
  | Json.obj kvs => kvs.map Prod.fst
  | _ => []

/-! ### The `__main__` block (source lines 58-71) -/

/-- The usage line printed to stderr when the audio-file argument is missing. -/
def usageMsg : String := "Usage: python transcribe-local.py <audio_file> [language]"

/-- Everything observable about one process invocation: exit status, the lines
printed to stdout and stderr, and the library calls performed. -/
structure ProcResult where
  exitCode : Nat
  stdoutLines : List String
  stderrLines : List String
  calls : List LibCall
deriving DecidableEq

/-- Embedding of the `__main__` block.  `argv` is `sys.argv` (so `argv[0]` is
the program name).  If fewer than two entries are present it prints the usage
message to stderr and exits 1.  Otherwise `audio_file = argv[1]` and
`language = argv[2] if len(argv) > 2 else "ur"`; `transcribe_audio` runs
inside `try`, on success the JSON dump is printed to stdout (exit 0, the
script falls off the end), and any exception is caught, `"Error: " + str(e)`
is printed to stderr and the process exits 1. -/
def main {M : Type} (fr : ℚ → String) (lib : FasterWhisper M)
    (argv : List String) : ProcResult :=
  if argv.length < 2 then
    ⟨1, [], [usageMsg], []⟩
  else
    let audio_file := argv.getD 1 ""
    let language := argv.getD 2 "ur"
    let run := transcribe_audio lib audio_file language
    match run.result with
    | Except.ok result =>
      ⟨0, [dumps fr 0 (resultToJson result)], run.stderrLines, run.calls⟩
    | Except.error e =>
      ⟨1, [], run.stderrLines ++ ["Error: " ++ e], run.calls⟩

/-! ### Concrete library oracles used to instantiate the theorems -/

/-- Two sample segments with integral times, as a stand-in library output. -/
def sampleSegments : List Segment :=
  [⟨0, 0, 1, "ya"⟩, ⟨1, 1, 3, "nabi"⟩]

/-- Sample summary info. -/
def sampleInfo : TranscriptionInfo := ⟨"ur", 3⟩

/-- The result dictionary the driver builds from `sampleSegments` and
`sampleInfo`. -/
def sampleResult : TranscriptionResult :=
  ⟨"ur", 3, "ya nabi", sampleSegments⟩

/-- An oracle whose every call succeeds, returning `sampleSegments`. -/
def testLib : FasterWhisper Unit where
  WhisperModel := fun _ _ _ => Except.ok ()
  transcribe := fun _ _ _ _ _ => Except.ok (sampleSegments, sampleInfo)

/-- An oracle with a different model-handle type returning the same segments
and info as `testLib`. -/
def testLibNat : FasterWhisper Nat where
  WhisperModel := fun _ _ _ => Except.ok 7
  transcribe := fun _ _ _ _ _ => Except.ok (sampleSegments, sampleInfo)

/-- An oracle whose model constructor raises. -/
def failLoadLib : FasterWhisper Unit where
  WhisperModel := fun _ _ _ => Except.error "Model file not found"
  transcribe := fun _ _ _ _ _ => Except.error "unreachable"

/-- An oracle whose transcription call raises. -/
def failTransLib : FasterWhisper Unit where
  WhisperModel := fun _ _ _ => Except.ok ()
  transcribe := fun _ path _ _ _ =>
    Except.error ("No such file or directory: " ++ path)

/-- An oracle that succeeds with an empty segment sequence. -/
def emptyLib : FasterWhisper Unit where
  WhisperModel := fun _ _ _ => Except.ok ()
  transcribe := fun _ _ _ _ _ => Except.ok ([], ⟨"ur", 0⟩)

/-- A fixed float renderer used to instantiate the serializer parameter. -/
def fr0 : ℚ → String := fun q => toString q.num ++ ".0"

/-! ### Characterization lemmas for the driver -/

/-- Rebuilding a segment field-by-field (as the `for` loop does) is the
identity. -/
theorem segment_rebuild (s : Segment) :
    ({ id := s.id, start := s.start, «end» := s.«end», text := s.text } :
      Segment) = s := rfl

/-- If the model constructor raises, `transcribe_audio` propagates the
exception after printing only the first progress line. -/
theorem transcribe_audio_load_error {M : Type} (lib : FasterWhisper M)
    (audio_path language e : String)
    (hW : lib.WhisperModel "large-v3" "cpu" "int8" = Except.error e) :
    transcribe_audio lib audio_path language =
      ⟨[LibCall.loadModel "large-v3" "cpu" "int8"],
       ["Loading Whisper model..."], Except.error e⟩ := by
  unfold transcribe_audio
  rw [hW]

/-- If the transcription call raises, `transcribe_audio` propagates the
exception after printing both progress lines. -/
theorem transcribe_audio_transcribe_error {M : Type} (lib : FasterWhisper M)
    (audio_path language e : String) (m : M)
    (hW : lib.WhisperModel "large-v3" "cpu" "int8" = Except.ok m)
    (hT : lib.transcribe m audio_path language 5 false = Except.error e) :
    transcribe_audio lib audio_path language =
      ⟨[LibCall.loadModel "large-v3" "cpu" "int8",
        LibCall.transcribeCall audio_path language 5 false],
       ["Loading Whisper model...", "Transcribing: " ++ audio_path],
       Except.error e⟩ := by
  unfold transcribe_audio
  rw [hW]
  dsimp only
  rw [hT]
  rfl

/-- On success, `transcribe_audio` returns the result dictionary built from
the library's segments and info. -/
theorem transcribe_audio_ok {M : Type} (lib : FasterWhisper M)
    (audio_path language : String) (m : M)
    (segs : List Segment) (info : TranscriptionInfo)
    (hW : lib.WhisperModel "large-v3" "cpu" "int8" = Except.ok m)
    (hT : lib.transcribe m audio_path language 5 false = Except.ok (segs, info)) :
    transcribe_audio lib audio_path language =
      ⟨[LibCall.loadModel "large-v3" "cpu" "int8",
        LibCall.transcribeCall audio_path language 5 false],
       ["Loading Whisper model...", "Transcribing: " ++ audio_path],
       Except.ok { language := info.language, duration := info.duration,
                   text := String.intercalate " " (segs.map Segment.text),
                   segments := segs }⟩ := by
  unfold transcribe_audio
  rw [hW]
  dsimp only
  rw [hT]
  dsimp only
  simp only [segment_rebuild, List.map_id']
  rfl

/-- With at least two argv entries, `main` dispatches on the outcome of
`transcribe_audio` applied to `argv[1]` and `argv[2]`-or-`"ur"`. -/
theorem main_cons_cons {M : Type} (fr : ℚ → String) (lib : FasterWhisper M)
    (prog file : String) (rest : List String) :
    main fr lib (prog :: file :: rest) =
      (match (transcribe_audio lib file (rest.getD 0 "ur")).result with
       | Except.ok result =>
         (⟨0, [dumps fr 0 (resultToJson result)],
           (transcribe_audio lib file (rest.getD 0 "ur")).stderrLines,
           (transcribe_audio lib file (rest.getD 0 "ur")).calls⟩ : ProcResult)
       | Except.error e =>
         ⟨1, [],
          (transcribe_audio lib file (rest.getD 0 "ur")).stderrLines ++
            ["Error: " ++ e],
          (transcribe_audio lib file (rest.getD 0 "ur")).calls⟩) := by
  unfold main
  simp only [List.length_cons, List.getD]
  rfl

/-- `main` on a failing model load: exit 1, empty stdout, the first progress
line then the error line on stderr, one library call. -/
theorem main_load_error {M : Type} (fr : ℚ → String) (lib : FasterWhisper M)
    (prog file : String) (rest : List String) (e : String)
    (hW : lib.WhisperModel "large-v3" "cpu" "int8" = Except.error e) :
    main fr lib (prog :: file :: rest) =
      ⟨1, [], ["Loading Whisper model...", "Error: " ++ e],
       [LibCall.loadModel "large-v3" "cpu" "int8"]⟩ := by
  rw [main_cons_cons,
    transcribe_audio_load_error lib file (rest.getD 0 "ur") e hW]
  rfl

/-- `main` on a failing transcription call: exit 1, empty stdout, both
progress lines then the error line on stderr, two library calls. -/
theorem main_transcribe_error {M : Type} (fr : ℚ → String)
    (lib : FasterWhisper M) (prog file : String) (rest : List String)
    (e : String) (m : M)
    (hW : lib.WhisperModel "large-v3" "cpu" "int8" = Except.ok m)
    (hT : lib.transcribe m file (rest.getD 0 "ur") 5 false = Except.error e) :
    main fr lib (prog :: file :: rest) =
      ⟨1, [],
       ["Loading Whisper model...", "Transcribing: " ++ file, "Error: " ++ e],
       [LibCall.loadModel "large-v3" "cpu" "int8",
        LibCall.transcribeCall file (rest.getD 0 "ur") 5 false]⟩ := by
  rw [main_cons_cons,
    transcribe_audio_transcribe_error lib file (rest.getD 0 "ur") e m hW hT]
  rfl

/-- `main` on a successful transcription: exit 0, the JSON dump as the single
stdout line, both progress lines on stderr, two library calls. -/
theorem main_ok {M : Type} (fr : ℚ → String) (lib : FasterWhisper M)
    (prog file : String) (rest : List String) (m : M)
    (segs : List Segment) (info : TranscriptionInfo)
    (hW : lib.WhisperModel "large-v3" "cpu" "int8" = Except.ok m)
    (hT : lib.transcribe m file (rest.getD 0 "ur") 5 false =
      Except.ok (segs, info)) :
    main fr lib (prog :: file :: rest) =
      ⟨0,
       [dumps fr 0 (resultToJson
          { language := info.language, duration := info.duration,
            text := String.intercalate " " (segs.map Segment.text),
            segments := segs })],
       ["Loading Whisper model...", "Transcribing: " ++ file],
       [LibCall.loadModel "large-v3" "cpu" "int8",
        LibCall.transcribeCall file (rest.getD 0 "ur") 5 false]⟩ := by
  rw [main_cons_cons,
    transcribe_audio_ok lib file (rest.getD 0 "ur") m segs info hW hT]

/-! ### Claims -/

/-- C1: for every transcription run that succeeds, the `text` field of the
resulting object equals the segments' `text` values joined by single spaces,
in the same order as the segments array, with no trimming, normalization, or
deduplication applied. -/
theorem C1_text_is_space_joined_segment_texts {M : Type}
    (lib : FasterWhisper M) (audio_path language : String)
    (r : TranscriptionResult)
    (h : (transcribe_audio lib audio_path language).result = Except.ok r) :
    r.text = String.intercalate " " (r.segments.map Segment.text) := by
  rcases hW : lib.WhisperModel "large-v3" "cpu" "int8" with eW | m
  · rw [transcribe_audio_load_error lib audio_path language eW hW] at h
    exact absurd h (by simp)
  · rcases hT : lib.transcribe m audio_path language 5 false with eT | ⟨segs, info⟩
    · rw [transcribe_audio_transcribe_error lib audio_path language eT m hW hT] at h
      exact absurd h (by simp)
    · rw [transcribe_audio_ok lib audio_path language m segs info hW hT] at h
      simp only [Except.ok.injEq] at h
      subst h
      rfl

/-- Witness for C1 at a concrete two-segment library output. -/
theorem C1_witness :
    (transcribe_audio testLib "naat.mp3" "ur").result = Except.ok sampleResult ∧
    sampleResult.text =
      String.intercalate " " (sampleResult.segments.map Segment.text) :=
  ⟨rfl, C1_text_is_space_joined_segment_texts testLib "naat.mp3" "ur"
    sampleResult rfl⟩

/-- C2: whenever model loading or transcription raises an exception, the
program catches it at top level, exits with status 1, writes nothing to
standard output, and the diagnostic stream receives the progress lines
followed by a single `"Error: <message>"` line. -/
theorem C2_error_caught_exit_one {M : Type} (fr : ℚ → String)
    (lib : FasterWhisper M) (prog file : String) (rest : List String)
    (e : String)
    (h : (transcribe_audio lib file (rest.getD 0 "ur")).result =
      Except.error e) :
    (main fr lib (prog :: file :: rest)).exitCode = 1 ∧
    (main fr lib (prog :: file :: rest)).stdoutLines = [] ∧
    ((main fr lib (prog :: file :: rest)).stderrLines =
        ["Loading Whisper model...", "Error: " ++ e] ∨
     (main fr lib (prog :: file :: rest)).stderrLines =
        ["Loading Whisper model...", "Transcribing: " ++ file,
         "Error: " ++ e]) := by
  rcases hW : lib.WhisperModel "large-v3" "cpu" "int8" with eW | m
  · rw [transcribe_audio_load_error lib file (rest.getD 0 "ur") eW hW] at h
    simp only [Except.error.injEq] at h
    rw [main_load_error fr lib prog file rest eW hW]
    refine ⟨rfl, rfl, Or.inl ?_⟩
    rw [h]
  · rcases hT : lib.transcribe m file (rest.getD 0 "ur") 5 false with eT | ⟨segs, info⟩
    · rw [transcribe_audio_transcribe_error lib file (rest.getD 0 "ur") eT m hW hT] at h
      simp only [Except.error.injEq] at h
      rw [main_transcribe_error fr lib prog file rest eT m hW hT]
      refine ⟨rfl, rfl, Or.inr ?_⟩
      rw [h]
    · rw [transcribe_audio_ok lib file (rest.getD 0 "ur") m segs info hW hT] at h
      exact absurd h (by simp)

/-- Witness for C2 at a concrete oracle whose transcription call raises. -/
theorem C2_witness :
    (transcribe_audio failTransLib "missing.mp3"
        (([] : List String).getD 0 "ur")).result =
      Except.error ("No such file or directory: " ++ "missing.mp3") ∧
    ((main fr0 failTransLib ["transcribe-local.py", "missing.mp3"]).exitCode = 1 ∧
     (main fr0 failTransLib ["transcribe-local.py", "missing.mp3"]).stdoutLines = [] ∧
     ((main fr0 failTransLib ["transcribe-local.py", "missing.mp3"]).stderrLines =
        ["Loading Whisper model...",
         "Error: " ++ ("No such file or directory: " ++ "missing.mp3")] ∨
      (main fr0 failTransLib ["transcribe-local.py", "missing.mp3"]).stderrLines =
        ["Loading Whisper model...", "Transcribing: " ++ "missing.mp3",
         "Error: " ++ ("No such file or directory: " ++ "missing.mp3")])) :=
  ⟨rfl, C2_error_caught_exit_one fr0 failTransLib "transcribe-local.py"
    "missing.mp3" [] ("No such file or directory: " ++ "missing.mp3") rfl⟩

/-- C3: with fewer than two argv entries the program prints the usage message
to the diagnostic stream, exits with status 1, prints nothing to standard
output, and performs no library call. -/
theorem C3_usage_error_before_model_work {M : Type} (fr : ℚ → String)
    (lib : FasterWhisper M) (argv : List String)
    (h : argv.length < 2) :
    main fr lib argv =
      ⟨1, [], [usageMsg], []⟩ := by
  unfold main
  rw [if_pos h]

/-- Witness for C3 at the one-entry argv. -/
theorem C3_witness :
    (["transcribe-local.py"] : List String).length < 2 ∧
    main fr0 testLib ["transcribe-local.py"] = ⟨1, [], [usageMsg], []⟩ :=
  ⟨by decide,
   C3_usage_error_before_model_work fr0 testLib ["transcribe-local.py"]
     (by decide)⟩

/-- C4: when the language argument is omitted (argv has exactly the program
name and the audio file), every transcription call the driver makes passes
the language code `"ur"`; the trace is either the lone model-load call or
that call followed by the transcription call with language `"ur"`. -/
theorem C4_omitted_language_defaults_to_ur {M : Type} (fr : ℚ → String)
    (lib : FasterWhisper M) (prog file : String) :
    (main fr lib [prog, file]).calls =
      [LibCall.loadModel "large-v3" "cpu" "int8"] ∨
    (main fr lib [prog, file]).calls =
      [LibCall.loadModel "large-v3" "cpu" "int8",
       LibCall.transcribeCall file "ur" 5 false] := by
  rcases hW : lib.WhisperModel "large-v3" "cpu" "int8" with eW | m
  · left
    rw [main_load_error fr lib prog file [] eW hW]
  · rcases hT : lib.transcribe m file "ur" 5 false with eT | ⟨segs, info⟩
    · right
      rw [main_transcribe_error fr lib prog file [] eT m hW hT]
      rfl
    · right
      rw [main_ok fr lib prog file [] m segs info hW hT]
      rfl


/-- C5: when the segments produced by the model library each satisfy
`start ≤ end` and have non-decreasing `start` values, the successful output
inherits both invariants verbatim (the driver does not enforce them). -/
theorem C5_segment_time_invariants_inherited {M : Type}
    (lib : FasterWhisper M) (audio_path language : String) (m : M)
    (segs : List Segment) (info : TranscriptionInfo)
    (hW : lib.WhisperModel "large-v3" "cpu" "int8" = Except.ok m)
    (hT : lib.transcribe m audio_path language 5 false = Except.ok (segs, info))
    (hse : ∀ s ∈ segs, s.start ≤ s.«end»)
    (hmono : (segs.map Segment.start).Chain' (· ≤ ·)) :
    ∃ r, (transcribe_audio lib audio_path language).result = Except.ok r ∧
      (∀ s ∈ r.segments, s.start ≤ s.«end») ∧
      (r.segments.map Segment.start).Chain' (· ≤ ·) := by
  refine ⟨{ language := info.language, duration := info.duration,
            text := String.intercalate " " (segs.map Segment.text),
            segments := segs }, ?_, hse, hmono⟩
  rw [transcribe_audio_ok lib audio_path language m segs info hW hT]

/-- Witness for C5 at the concrete two-segment library output. -/
theorem C5_witness :
    (testLib.WhisperModel "large-v3" "cpu" "int8" = Except.ok ()) ∧
    (testLib.transcribe () "naat.mp3" "ur" 5 false =
      Except.ok (sampleSegments, sampleInfo)) ∧
    (∀ s ∈ sampleSegments, s.start ≤ s.«end») ∧
    ((sampleSegments.map Segment.start).Chain' (· ≤ ·)) ∧
    (∃ r, (transcribe_audio testLib "naat.mp3" "ur").result = Except.ok r ∧
      (∀ s ∈ r.segments, s.start ≤ s.«end») ∧
      (r.segments.map Segment.start).Chain' (· ≤ ·)) :=
  ⟨rfl, rfl, by decide, by norm_num [sampleSegments, List.chain'_cons],
   C5_segment_time_invariants_inherited testLib "naat.mp3" "ur" ()
     sampleSegments sampleInfo rfl rfl (by decide)
     (by norm_num [sampleSegments, List.chain'_cons])⟩

/-- A library call whose configuration arguments are the hardcoded ones:
model `"large-v3"` on `"cpu"` with `"int8"` weights for the constructor, beam
width 5 with word timestamps disabled for the transcription call. -/
def fixedConfigCall : LibCall → Bool
  | LibCall.loadModel modelSize device computeType =>
      modelSize == "large-v3" && device == "cpu" && computeType == "int8"
  | LibCall.transcribeCall _ _ beamSize wordTimestamps =>
      beamSize == 5 && wordTimestamps == false

/-- C6: every library call of every invocation uses the fixed hardcoded
configuration, and any invocation with at least two argv entries makes either
just the fixed model-load call or that call followed by the transcription
call with beam width 5 and word timestamps disabled, regardless of the
command-line inputs. -/
theorem C6_fixed_model_configuration {M : Type} (fr : ℚ → String)
    (lib : FasterWhisper M) :
    (∀ argv : List String,
      ((main fr lib argv).calls.all fixedConfigCall) = true) ∧
    (∀ prog file : String, ∀ rest : List String,
      (main fr lib (prog :: file :: rest)).calls =
        [LibCall.loadModel "large-v3" "cpu" "int8"] ∨
      (main fr lib (prog :: file :: rest)).calls =
        [LibCall.loadModel "large-v3" "cpu" "int8",
         LibCall.transcribeCall file (rest.getD 0 "ur") 5 false]) := by
  have key : ∀ prog file : String, ∀ rest : List String,
      (main fr lib (prog :: file :: rest)).calls =
        [LibCall.loadModel "large-v3" "cpu" "int8"] ∨
      (main fr lib (prog :: file :: rest)).calls =
        [LibCall.loadModel "large-v3" "cpu" "int8",
         LibCall.transcribeCall file (rest.getD 0 "ur") 5 false] := by
    intro prog file rest
    rcases hW : lib.WhisperModel "large-v3" "cpu" "int8" with eW | m
    · left
      rw [main_load_error fr lib prog file rest eW hW]
    · rcases hT : lib.transcribe m file (rest.getD 0 "ur") 5 false with eT | ⟨segs, info⟩
      · right
        rw [main_transcribe_error fr lib prog file rest eT m hW hT]
      · right
        rw [main_ok fr lib prog file rest m segs info hW hT]
  refine ⟨?_, key⟩
  intro argv
  match argv with
  | [] => rfl
  | [prog] => rfl
  | prog :: file :: rest =>
    rcases key prog file rest with hc | hc
    · rw [hc]
      rfl
    · rw [hc]
      rfl

/-- C7: the driver copies each library-produced segment verbatim (all four
fields unmodified) into the output, in exactly the order the library produced
them: the output segments list is equal to the library's list. -/
theorem C7_segments_copied_verbatim_in_order {M : Type}
    (lib : FasterWhisper M) (audio_path language : String) (m : M)
    (segs : List Segment) (info : TranscriptionInfo)
    (hW : lib.WhisperModel "large-v3" "cpu" "int8" = Except.ok m)
    (hT : lib.transcribe m audio_path language 5 false =
      Except.ok (segs, info)) :
    ∃ r, (transcribe_audio lib audio_path language).result = Except.ok r ∧
      r.segments = segs := by
  refine ⟨{ language := info.language, duration := info.duration,
            text := String.intercalate " " (segs.map Segment.text),
            segments := segs }, ?_, rfl⟩
  rw [transcribe_audio_ok lib audio_path language m segs info hW hT]

/-- Witness for C7 at the concrete two-segment library output. -/
theorem C7_witness :
    (testLib.WhisperModel "large-v3" "cpu" "int8" = Except.ok ()) ∧
    (testLib.transcribe () "naat.mp3" "ur" 5 false =
      Except.ok (sampleSegments, sampleInfo)) ∧
    (∃ r, (transcribe_audio testLib "naat.mp3" "ur").result = Except.ok r ∧
      r.segments = sampleSegments) :=
  ⟨rfl, rfl,
   C7_segments_copied_verbatim_in_order testLib "naat.mp3" "ur" ()
     sampleSegments sampleInfo rfl rfl⟩

/-- C8: on success the program exits with status 0 and prints exactly one
document to standard output: the JSON serialization of the result (keys
`language`, `duration`, `text`, `segments`) pretty-printed with 2-space
indentation, where the escaper leaves every printable character above the
control range — in particular every non-ASCII character — literal. -/
theorem C8_success_single_json_document {M : Type} (fr : ℚ → String)
    (lib : FasterWhisper M) (prog file : String) (rest : List String)
    (r : TranscriptionResult)
    (h : (transcribe_audio lib file (rest.getD 0 "ur")).result =
      Except.ok r) :
    (main fr lib (prog :: file :: rest)).exitCode = 0 ∧
    (main fr lib (prog :: file :: rest)).stdoutLines =
      [dumps fr 0 (resultToJson r)] ∧
    jsonKeys (resultToJson r) = ["language", "duration", "text", "segments"] ∧
    (∀ c : Char, 32 ≤ c.toNat → c ≠ '"' → c ≠ '\\' →
      pyEscapeChar c = String.singleton c) := by
  rcases hW : lib.WhisperModel "large-v3" "cpu" "int8" with eW | m
  · rw [transcribe_audio_load_error lib file (rest.getD 0 "ur") eW hW] at h
    exact absurd h (by simp)
  · rcases hT : lib.transcribe m file (rest.getD 0 "ur") 5 false with eT | ⟨segs, info⟩
    · rw [transcribe_audio_transcribe_error lib file (rest.getD 0 "ur") eT m hW hT] at h
      exact absurd h (by simp)
    · rw [transcribe_audio_ok lib file (rest.getD 0 "ur") m segs info hW hT] at h
      simp only [Except.ok.injEq] at h
      subst h
      rw [main_ok fr lib prog file rest m segs info hW hT]
      refine ⟨rfl, rfl, rfl, ?_⟩
      intro c hc hq hb
      unfold pyEscapeChar
      rw [if_neg hq, if_neg hb]
      rw [if_neg (by rintro rfl; exact absurd hc (by decide))]
      rw [if_neg (by rintro rfl; exact absurd hc (by decide))]
      rw [if_neg (by rintro rfl; exact absurd hc (by decide))]
      rw [if_neg (by rintro rfl; exact absurd hc (by decide))]
      rw [if_neg (by rintro rfl; exact absurd hc (by decide))]
      rw [if_neg (by omega)]

/-- Witness for C8 at the concrete two-segment library output. -/
theorem C8_witness :
    (transcribe_audio testLib "naat.mp3"
        (([] : List String).getD 0 "ur")).result = Except.ok sampleResult ∧
    ((main fr0 testLib ["transcribe-local.py", "naat.mp3"]).exitCode = 0 ∧
     (main fr0 testLib ["transcribe-local.py", "naat.mp3"]).stdoutLines =
       [dumps fr0 0 (resultToJson sampleResult)] ∧
     jsonKeys (resultToJson sampleResult) =
       ["language", "duration", "text", "segments"] ∧
     (∀ c : Char, 32 ≤ c.toNat → c ≠ '"' → c ≠ '\\' →
       pyEscapeChar c = String.singleton c)) :=
  ⟨rfl, C8_success_single_json_document fr0 testLib "transcribe-local.py"
    "naat.mp3" [] sampleResult rfl⟩

/-- C9: the driver is deterministic relative to its library oracle: two runs
whose oracles return the same segment sequence and summary info at the
configuration the driver uses produce identical process outputs. -/
theorem C9_deterministic_relative_to_library {M₁ M₂ : Type} (fr : ℚ → String)
    (lib₁ : FasterWhisper M₁) (lib₂ : FasterWhisper M₂)
    (prog file : String) (rest : List String) (m₁ : M₁) (m₂ : M₂)
    (segs : List Segment) (info : TranscriptionInfo)
    (hW₁ : lib₁.WhisperModel "large-v3" "cpu" "int8" = Except.ok m₁)
    (hW₂ : lib₂.WhisperModel "large-v3" "cpu" "int8" = Except.ok m₂)
    (hT₁ : lib₁.transcribe m₁ file (rest.getD 0 "ur") 5 false =
      Except.ok (segs, info))
    (hT₂ : lib₂.transcribe m₂ file (rest.getD 0 "ur") 5 false =
      Except.ok (segs, info)) :
    main fr lib₁ (prog :: file :: rest) =
      main fr lib₂ (prog :: file :: rest) := by
  rw [main_ok fr lib₁ prog file rest m₁ segs info hW₁ hT₁,
      main_ok fr lib₂ prog file rest m₂ segs info hW₂ hT₂]

/-- Witness for C9 at two concrete oracles with distinct model-handle types
returning the same segments and info. -/
theorem C9_witness :
    (testLib.WhisperModel "large-v3" "cpu" "int8" = Except.ok ()) ∧
    (testLibNat.WhisperModel "large-v3" "cpu" "int8" = Except.ok 7) ∧
    (testLib.transcribe () "naat.mp3" "ur" 5 false =
      Except.ok (sampleSegments, sampleInfo)) ∧
    (testLibNat.transcribe 7 "naat.mp3" "ur" 5 false =
      Except.ok (sampleSegments, sampleInfo)) ∧
    main fr0 testLib ["transcribe-local.py", "naat.mp3"] =
      main fr0 testLibNat ["transcribe-local.py", "naat.mp3"] :=
  ⟨rfl, rfl, rfl, rfl,
   C9_deterministic_relative_to_library fr0 testLib testLibNat
     "transcribe-local.py" "naat.mp3" [] () 7 sampleSegments sampleInfo
     rfl rfl rfl rfl⟩

/-- C10: when the library yields an empty segment sequence the driver still
succeeds, with empty `text` (the join of zero texts), empty `segments`, and
`language`/`duration` taken from the library's summary info. -/
theorem C10_empty_segments_empty_text {M : Type} (lib : FasterWhisper M)
    (audio_path language : String) (m : M) (info : TranscriptionInfo)
    (hW : lib.WhisperModel "large-v3" "cpu" "int8" = Except.ok m)
    (hT : lib.transcribe m audio_path language 5 false =
      Except.ok ([], info)) :
    ∃ r, (transcribe_audio lib audio_path language).result = Except.ok r ∧
      r.text = "" ∧ r.segments = [] ∧
      r.language = info.language ∧ r.duration = info.duration := by
  refine ⟨{ language := info.language, duration := info.duration,
            text := String.intercalate " " (([] : List Segment).map Segment.text),
            segments := [] }, ?_, ?_, rfl, rfl, rfl⟩
  · rw [transcribe_audio_ok lib audio_path language m ([] : List Segment) info hW hT]
  · rfl

/-- Witness for C10 at a concrete oracle returning no segments. -/
theorem C10_witness :
    (emptyLib.WhisperModel "large-v3" "cpu" "int8" = Except.ok ()) ∧
    (emptyLib.transcribe () "silence.mp3" "ur" 5 false =
      Except.ok ([], ⟨"ur", 0⟩)) ∧
    (∃ r, (transcribe_audio emptyLib "silence.mp3" "ur").result = Except.ok r ∧
      r.text = "" ∧ r.segments = [] ∧
      r.language = TranscriptionInfo.language ⟨"ur", 0⟩ ∧
      r.duration = TranscriptionInfo.duration ⟨"ur", 0⟩) :=
  ⟨rfl, rfl,
   C10_empty_segments_empty_text emptyLib "silence.mp3" "ur" () ⟨"ur", 0⟩
     rfl rfl⟩

end NaatTranscribe
